import Mathlib

/-!
Verification of the MeshFlow native addon layer
(`src/native-addons/src`): input injection (mouse/keyboard synthesis,
`input_injection_win.cc`) and window embedding
(`window_embedding.cc` / `window_embedding_win.cc`).

The OS surface (SendInput, SetCursorPos, SetParent, EnumWindows,
VkKeyScan, window styles) is modelled explicitly: each injection call
returns the ordered list of primitive OS actions it issued together
with its boolean result, and the embedding layer is modelled as a
state transformer over an abstract OS window state plus the
process-wide registry map.
-/

namespace InputInjection

/-- A primitive OS action issued by the input synthesizer:
a cursor reposition (`SetCursorPos`), a mouse-button `SendInput`
(identified by its `MOUSEEVENTF_*` flag word), or a keyboard
`SendInput` (virtual-key code plus whether `KEYEVENTF_KEYUP` is set). -/
inductive OsAction where
  | setCursorPos (x y : Int)
  | sendMouseInput (flags : Nat)
  | sendKeyInput (vk : Nat) (keyUp : Bool)
deriving DecidableEq, Repr

/-- Result of a native injection call: the trace of primitive OS actions
issued, in order, and the boolean returned to the caller. -/
structure InjectResult where
  trace : List OsAction
  ret : Bool
deriving DecidableEq, Repr

-- Event-type and button enums from input_injection_win.cc.
def MOUSE_MOVE : Int := 0
def MOUSE_DOWN : Int := 1
def MOUSE_UP : Int := 2
def MOUSE_CLICK : Int := 3

def KEY_DOWN : Int := 0
def KEY_UP : Int := 1
def KEY_PRESS : Int := 2

-- MOUSEEVENTF_* flag constants from <windows.h>.
def MOUSEEVENTF_LEFTDOWN : Nat := 0x0002
def MOUSEEVENTF_LEFTUP : Nat := 0x0004
def MOUSEEVENTF_RIGHTDOWN : Nat := 0x0008
def MOUSEEVENTF_RIGHTUP : Nat := 0x0010
def MOUSEEVENTF_MIDDLEDOWN : Nat := 0x0020
def MOUSEEVENTF_MIDDLEUP : Nat := 0x0040

-- Virtual-key codes from <windows.h>.
def VK_RETURN : Nat := 0x0D
def VK_TAB : Nat := 0x09
def VK_SPACE : Nat := 0x20
def VK_BACK : Nat := 0x08
def VK_DELETE : Nat := 0x2E
def VK_ESCAPE : Nat := 0x1B
def VK_UP : Nat := 0x26
def VK_DOWN : Nat := 0x28
def VK_LEFT : Nat := 0x25
def VK_RIGHT : Nat := 0x27
def VK_LSHIFT : Nat := 0xA0
def VK_LCONTROL : Nat := 0xA2
def VK_LMENU : Nat := 0xA4
def VK_LWIN : Nat := 0x5B

/-- Model of `InjectMouseEventNative` from `input_injection_win.cc`.

`accept n` models the result of the `n`-th `SendInput` call of this
invocation (`true` = the OS accepted the event into its input queue,
i.e. `SendInput` returned 1).  The cursor is always repositioned first
(`SetCursorPos(x, y)` before the `switch`).  The `buttons` argument of
the C function is accepted and ignored, as in the source. -/
def InjectMouseEventNative (accept : Nat → Bool) (type : Int) (x y : Int)
    (button : Int) (buttons : Int) : InjectResult :=
  let _ := buttons
  let posAct := OsAction.setCursorPos x y
  if type = MOUSE_MOVE then
    { trace := [posAct], ret := true }
  else if type = MOUSE_DOWN then
    let mouseFlags :=
      if button = 0 then MOUSEEVENTF_LEFTDOWN
      else if button = 1 then MOUSEEVENTF_RIGHTDOWN
      else if button = 2 then MOUSEEVENTF_MIDDLEDOWN
      else 0
    if mouseFlags ≠ 0 then
      { trace := [posAct, OsAction.sendMouseInput mouseFlags], ret := accept 0 }
    else
      { trace := [posAct], ret := true }
  else if type = MOUSE_UP then
    let mouseFlags :=
      if button = 0 then MOUSEEVENTF_LEFTUP
      else if button = 1 then MOUSEEVENTF_RIGHTUP
      else if button = 2 then MOUSEEVENTF_MIDDLEUP
      else 0
    if mouseFlags ≠ 0 then
      { trace := [posAct, OsAction.sendMouseInput mouseFlags], ret := accept 0 }
    else
      { trace := [posAct], ret := true }
  else if type = MOUSE_CLICK then
    if button = 0 then
      { trace := [posAct, OsAction.sendMouseInput MOUSEEVENTF_LEFTDOWN,
                  OsAction.sendMouseInput MOUSEEVENTF_LEFTUP], ret := true }
    else if button = 1 then
      { trace := [posAct, OsAction.sendMouseInput MOUSEEVENTF_RIGHTDOWN,
                  OsAction.sendMouseInput MOUSEEVENTF_RIGHTUP], ret := true }
    else if button = 2 then
      { trace := [posAct, OsAction.sendMouseInput MOUSEEVENTF_MIDDLEDOWN,
                  OsAction.sendMouseInput MOUSEEVENTF_MIDDLEUP], ret := true }
    else
      { trace := [posAct], ret := false }
  else
    -- unknown event type: falls through the switch with mouseFlags == 0
    { trace := [posAct], ret := true }

/-- Key-to-virtual-key resolution from `InjectKeyboardEventNative`
(`input_injection_win.cc`, lines 100-131).  `vkKeyScan ch` models the
16-bit result of `VkKeyScan(ch)`; the code takes its low byte as the
key code and bit 0 of its high byte as the implicit-shift flag.
Returns `(vkCode, needsShift)`; `vkCode = 0` means unresolvable. -/
def resolveKey (vkKeyScan : Char → Nat) (key : String) : Nat × Bool :=
  if key = "Enter" then (VK_RETURN, false)
  else if key = "Tab" then (VK_TAB, false)
  else if key = "Space" then (VK_SPACE, false)
  else if key = "Backspace" then (VK_BACK, false)
  else if key = "Delete" then (VK_DELETE, false)
  else if key = "Escape" then (VK_ESCAPE, false)
  else if key = "ArrowUp" then (VK_UP, false)
  else if key = "ArrowDown" then (VK_DOWN, false)
  else if key = "ArrowLeft" then (VK_LEFT, false)
  else if key = "ArrowRight" then (VK_RIGHT, false)
  else
    match key.data with
    | [ch] =>
      if 'A' ≤ ch ∧ ch ≤ 'Z' then (ch.toNat, true)
      else if 'a' ≤ ch ∧ ch ≤ 'z' then (ch.toNat - 32, false)
      else if '0' ≤ ch ∧ ch ≤ '9' then (ch.toNat, false)
      else
        let scan := vkKeyScan ch
        (scan &&& 0xFF, decide (((scan >>> 8) &&& 1) ≠ 0))
    | _ => (0, false)

/-- Model of `InjectKeyboardEventNative` from `input_injection_win.cc`.

The trace is built exactly as the source issues `SendInput` calls:
modifier presses in the order shift (requested or implicit), ctrl, alt,
meta; the primary key event (`KEYEVENTF_KEYUP` iff `type == KEY_UP`);
then unconditional modifier releases in reverse order.  The returned
boolean reflects only the `SendInput` result of the primary key event
(`accept` indexed by the number of `SendInput` calls already made);
modifier `SendInput` results are discarded, as in the source. -/
def InjectKeyboardEventNative (vkKeyScan : Char → Nat) (accept : Nat → Bool)
    (type : Int) (key : String) (shift ctrl alt meta : Bool) : InjectResult :=
  let r := resolveKey vkKeyScan key
  let vkCode := r.1
  let needsShift := r.2
  if vkCode = 0 then
    { trace := [], ret := false }
  else
    let t1 : List OsAction :=
      if shift || needsShift then [OsAction.sendKeyInput VK_LSHIFT false] else []
    let t2 := t1 ++ (if ctrl then [OsAction.sendKeyInput VK_LCONTROL false] else [])
    let t3 := t2 ++ (if alt then [OsAction.sendKeyInput VK_LMENU false] else [])
    let t4 := t3 ++ (if meta then [OsAction.sendKeyInput VK_LWIN false] else [])
    let t5 := t4 ++ [OsAction.sendKeyInput vkCode (decide (type = KEY_UP))]
    let t6 := t5 ++ (if meta then [OsAction.sendKeyInput VK_LWIN true] else [])
    let t7 := t6 ++ (if alt then [OsAction.sendKeyInput VK_LMENU true] else [])
    let t8 := t7 ++ (if ctrl then [OsAction.sendKeyInput VK_LCONTROL true] else [])
    let t9 := t8 ++ (if shift || needsShift then [OsAction.sendKeyInput VK_LSHIFT true] else [])
    { trace := t9, ret := accept t4.length }

/-- The modifier press sequence for effective-shift/ctrl/alt/meta flags,
in the fixed order shift, ctrl, alt, meta (presses, i.e. `keyUp = false`). -/
def modPresses (shiftEff ctrl alt meta : Bool) : List OsAction :=
  (if shiftEff then [OsAction.sendKeyInput VK_LSHIFT false] else [])
    ++ (if ctrl then [OsAction.sendKeyInput VK_LCONTROL false] else [])
    ++ (if alt then [OsAction.sendKeyInput VK_LMENU false] else [])
    ++ (if meta then [OsAction.sendKeyInput VK_LWIN false] else [])

/-- Turn a key press action into the corresponding release. -/
def toRelease : OsAction → OsAction
  | OsAction.sendKeyInput vk _ => OsAction.sendKeyInput vk true
  | a => a

/-- Whether an action is a mouse-button `SendInput` primitive. -/
def isMousePrim : OsAction → Bool
  | OsAction.sendMouseInput _ => true
  | _ => false

end InputInjection

namespace InputInjection

/-- The `MOUSEEVENTF_*` press flag corresponding to a button id. -/
def pressFlag : Int → Nat
  | 0 => MOUSEEVENTF_LEFTDOWN
  | 1 => MOUSEEVENTF_RIGHTDOWN
  | 2 => MOUSEEVENTF_MIDDLEDOWN
  | _ => 0

/-- The `MOUSEEVENTF_*` release flag corresponding to a button id. -/
def releaseFlag : Int → Nat
  | 0 => MOUSEEVENTF_LEFTUP
  | 1 => MOUSEEVENTF_RIGHTUP
  | 2 => MOUSEEVENTF_MIDDLEUP
  | _ => 0

end InputInjection

open InputInjection in
/-- C2, counterexample: the claim says an out-of-range button on a Down
event issues no primitive and the call returns `false`; the code indeed
issues no mouse primitive but returns `true` (the `switch` leaves
`mouseFlags == 0` and the function falls through to `return true`).
Shown at button 3 with an OS that would reject every `SendInput`. -/
theorem C2_out_of_range_returns_true :
    (InjectMouseEventNative (fun _ => false) MOUSE_DOWN 10 20 3 0).ret = true ∧
    (InjectMouseEventNative (fun _ => false) MOUSE_DOWN 10 20 3 0).trace.filter isMousePrim
      = [] := by
  decide

open InputInjection in
/-- C2 (amended): for a Down or Up mouse event with button 0, 1 or 2,
exactly one corresponding press/release primitive is issued and the call
returns true iff the OS accepts that primitive into its input queue; for
an out-of-range button no primitive is issued and the call returns
`true` (not `false` as the claim stated). -/
theorem C2_mouse_down_up (accept : Nat → Bool) (x y bs btn : Int) :
    (btn = 0 ∨ btn = 1 ∨ btn = 2 →
      InjectMouseEventNative accept MOUSE_DOWN x y btn bs =
        ⟨[OsAction.setCursorPos x y, OsAction.sendMouseInput (pressFlag btn)], accept 0⟩ ∧
      InjectMouseEventNative accept MOUSE_UP x y btn bs =
        ⟨[OsAction.setCursorPos x y, OsAction.sendMouseInput (releaseFlag btn)], accept 0⟩) ∧
    (btn ≠ 0 → btn ≠ 1 → btn ≠ 2 →
      InjectMouseEventNative accept MOUSE_DOWN x y btn bs =
        ⟨[OsAction.setCursorPos x y], true⟩ ∧
      InjectMouseEventNative accept MOUSE_UP x y btn bs =
        ⟨[OsAction.setCursorPos x y], true⟩) := by
  constructor
  · rintro (rfl | rfl | rfl) <;>
      simp [InjectMouseEventNative, MOUSE_MOVE, MOUSE_DOWN, MOUSE_UP, pressFlag, releaseFlag,
        MOUSEEVENTF_LEFTDOWN, MOUSEEVENTF_LEFTUP, MOUSEEVENTF_RIGHTDOWN, MOUSEEVENTF_RIGHTUP,
        MOUSEEVENTF_MIDDLEDOWN, MOUSEEVENTF_MIDDLEUP]
  · intro h0 h1 h2
    constructor <;>
      simp [InjectMouseEventNative, MOUSE_MOVE, MOUSE_DOWN, MOUSE_UP, h0, h1, h2]

open InputInjection in
/-- Witness for C2_mouse_down_up at button 1 (right button). -/
theorem C2_mouse_down_up_witness :
    InjectMouseEventNative (fun _ => true) MOUSE_DOWN 5 6 1 0 =
      ⟨[OsAction.setCursorPos 5 6, OsAction.sendMouseInput (pressFlag 1)], (fun _ => true) 0⟩ :=
  (((C2_mouse_down_up (fun _ => true) 5 6 0 1).1) (Or.inr (Or.inl rfl))).1

open InputInjection in
/-- C6: for a Click event with button 0, 1 or 2, the issued sequence is
exactly: cursor repositioned to (x, y), one button-down primitive, one
button-up primitive for the same button, nothing in between; for an
unknown button no button primitive is issued at all and the call fails. -/
theorem C6_click_atomic_pair (accept : Nat → Bool) (x y bs : Int) :
    InjectMouseEventNative accept MOUSE_CLICK x y 0 bs =
      ⟨[OsAction.setCursorPos x y, OsAction.sendMouseInput MOUSEEVENTF_LEFTDOWN,
        OsAction.sendMouseInput MOUSEEVENTF_LEFTUP], true⟩ ∧
    InjectMouseEventNative accept MOUSE_CLICK x y 1 bs =
      ⟨[OsAction.setCursorPos x y, OsAction.sendMouseInput MOUSEEVENTF_RIGHTDOWN,
        OsAction.sendMouseInput MOUSEEVENTF_RIGHTUP], true⟩ ∧
    InjectMouseEventNative accept MOUSE_CLICK x y 2 bs =
      ⟨[OsAction.setCursorPos x y, OsAction.sendMouseInput MOUSEEVENTF_MIDDLEDOWN,
        OsAction.sendMouseInput MOUSEEVENTF_MIDDLEUP], true⟩ ∧
    (∀ btn : Int, btn ≠ 0 → btn ≠ 1 → btn ≠ 2 →
      InjectMouseEventNative accept MOUSE_CLICK x y btn bs =
        ⟨[OsAction.setCursorPos x y], false⟩ ∧
      (InjectMouseEventNative accept MOUSE_CLICK x y btn bs).trace.filter isMousePrim = []) := by
  refine ⟨?_, ?_, ?_, ?_⟩
  · simp [InjectMouseEventNative, MOUSE_MOVE, MOUSE_DOWN, MOUSE_UP, MOUSE_CLICK]
  · simp [InjectMouseEventNative, MOUSE_MOVE, MOUSE_DOWN, MOUSE_UP, MOUSE_CLICK]
  · simp [InjectMouseEventNative, MOUSE_MOVE, MOUSE_DOWN, MOUSE_UP, MOUSE_CLICK]
  · intro btn h0 h1 h2
    constructor <;>
      simp [InjectMouseEventNative, MOUSE_MOVE, MOUSE_DOWN, MOUSE_UP, MOUSE_CLICK,
        isMousePrim, h0, h1, h2]

open InputInjection in
/-- Witness for C6_click_atomic_pair: the unknown-button conjunct
applied at button 7. -/
theorem C6_click_atomic_pair_witness :
    InjectMouseEventNative (fun _ => true) MOUSE_CLICK 100 200 7 0 =
      ⟨[OsAction.setCursorPos 100 200], false⟩ :=
  ((C6_click_atomic_pair (fun _ => true) 100 200 0).2.2.2 7 (by decide) (by decide) (by decide)).1

namespace InputInjection

/-- The named control keys of the fixed resolution table. -/
def namedKeys : List String :=
  ["Enter", "Tab", "Space", "Backspace", "Delete", "Escape",
   "ArrowUp", "ArrowDown", "ArrowLeft", "ArrowRight"]

theorem mk_singleton_length (ch : Char) : (String.mk [ch]).length = 1 := rfl

theorem mk_singleton_ne (ch : Char) (s : String) (h : s.length ≠ 1) :
    String.mk [ch] ≠ s := by
  intro he
  subst he
  exact h rfl

end InputInjection

open InputInjection in
/-- C3: for every keyboard event with a resolvable key, the issued
primitive sequence is: a press of each requested modifier (with the
implicit-shift requirement OR-ed into shift) in the fixed order shift,
ctrl, alt, meta; then the primary key press or release according to the
event kind (`KEYEVENTF_KEYUP` iff the kind is Up); then a release of
every pressed modifier in reverse order — unconditionally, for every
event kind including Down. -/
theorem C3_keyboard_modifier_chord (vkKeyScan : Char → Nat) (accept : Nat → Bool)
    (type : Int) (key : String) (shift ctrl alt meta : Bool)
    (hres : (resolveKey vkKeyScan key).1 ≠ 0) :
    (InjectKeyboardEventNative vkKeyScan accept type key shift ctrl alt meta).trace =
      modPresses (shift || (resolveKey vkKeyScan key).2) ctrl alt meta
        ++ [OsAction.sendKeyInput (resolveKey vkKeyScan key).1 (decide (type = KEY_UP))]
        ++ ((modPresses (shift || (resolveKey vkKeyScan key).2) ctrl alt meta).reverse.map
              toRelease) := by
  simp only [InjectKeyboardEventNative, if_neg hres]
  cases shift <;> cases ctrl <;> cases alt <;> cases meta <;>
    cases hns : (resolveKey vkKeyScan key).2 <;>
    simp [modPresses, toRelease, hns]

open InputInjection in
/-- Witness for C3_keyboard_modifier_chord: keydown of "A" with only
ctrl requested; the implicit shift from the uppercase letter is pressed
first and both modifiers are released after the key-down. -/
theorem C3_keyboard_modifier_chord_witness :
    (InjectKeyboardEventNative (fun _ => 0) (fun _ => true) KEY_DOWN "A"
        false true false false).trace =
      modPresses (false || (resolveKey (fun _ => 0) "A").2) true false false
        ++ [OsAction.sendKeyInput (resolveKey (fun _ => 0) "A").1 (decide (KEY_DOWN = KEY_UP))]
        ++ ((modPresses (false || (resolveKey (fun _ => 0) "A").2) true false false).reverse.map
              toRelease) :=
  C3_keyboard_modifier_chord (fun _ => 0) (fun _ => true) KEY_DOWN "A"
    false true false false (by decide)

namespace InputInjection

/-- Resolution of a single-character key string, with the ten
named-table tests discharged (no single character equals a named key). -/
theorem resolveKey_singleton (vkKeyScan : Char → Nat) (ch : Char) :
    resolveKey vkKeyScan (String.mk [ch]) =
      (if 'A' ≤ ch ∧ ch ≤ 'Z' then (ch.toNat, true)
       else if 'a' ≤ ch ∧ ch ≤ 'z' then (ch.toNat - 32, false)
       else if '0' ≤ ch ∧ ch ≤ '9' then (ch.toNat, false)
       else (vkKeyScan ch &&& 0xFF, decide (((vkKeyScan ch >>> 8) &&& 1) ≠ 0))) := by
  simp only [resolveKey]
  rw [if_neg (mk_singleton_ne ch "Enter" (by decide)),
      if_neg (mk_singleton_ne ch "Tab" (by decide)),
      if_neg (mk_singleton_ne ch "Space" (by decide)),
      if_neg (mk_singleton_ne ch "Backspace" (by decide)),
      if_neg (mk_singleton_ne ch "Delete" (by decide)),
      if_neg (mk_singleton_ne ch "Escape" (by decide)),
      if_neg (mk_singleton_ne ch "ArrowUp" (by decide)),
      if_neg (mk_singleton_ne ch "ArrowDown" (by decide)),
      if_neg (mk_singleton_ne ch "ArrowLeft" (by decide)),
      if_neg (mk_singleton_ne ch "ArrowRight" (by decide))]

end InputInjection

open InputInjection in
/-- C5: key resolution follows the fixed priority: the named control
keys map via the fixed table; a single ASCII letter or digit maps to its
physical key code, an uppercase letter additionally setting the
implicit-shift requirement (so a keydown of "A" with `shiftKey = false`
still issues a shift-chorded press); any other single character goes
through the layout lookup (`VkKeyScan`); any multi-character key not in
the named table fails with no key primitive issued. -/
theorem C5_key_resolution_priority (vkKeyScan : Char → Nat) (accept : Nat → Bool) :
    (resolveKey vkKeyScan "Enter" = (VK_RETURN, false) ∧
     resolveKey vkKeyScan "Tab" = (VK_TAB, false) ∧
     resolveKey vkKeyScan "Space" = (VK_SPACE, false) ∧
     resolveKey vkKeyScan "Backspace" = (VK_BACK, false) ∧
     resolveKey vkKeyScan "Delete" = (VK_DELETE, false) ∧
     resolveKey vkKeyScan "Escape" = (VK_ESCAPE, false) ∧
     resolveKey vkKeyScan "ArrowUp" = (VK_UP, false) ∧
     resolveKey vkKeyScan "ArrowDown" = (VK_DOWN, false) ∧
     resolveKey vkKeyScan "ArrowLeft" = (VK_LEFT, false) ∧
     resolveKey vkKeyScan "ArrowRight" = (VK_RIGHT, false)) ∧
    (∀ ch : Char, 'A' ≤ ch → ch ≤ 'Z' →
       resolveKey vkKeyScan (String.mk [ch]) = (ch.toNat, true)) ∧
    (∀ ch : Char, 'a' ≤ ch → ch ≤ 'z' →
       resolveKey vkKeyScan (String.mk [ch]) = (ch.toNat - 32, false)) ∧
    (∀ ch : Char, '0' ≤ ch → ch ≤ '9' →
       resolveKey vkKeyScan (String.mk [ch]) = (ch.toNat, false)) ∧
    (∀ ch : Char, ¬('A' ≤ ch ∧ ch ≤ 'Z') → ¬('a' ≤ ch ∧ ch ≤ 'z') →
       ¬('0' ≤ ch ∧ ch ≤ '9') →
       resolveKey vkKeyScan (String.mk [ch]) =
         (vkKeyScan ch &&& 0xFF, decide (((vkKeyScan ch >>> 8) &&& 1) ≠ 0))) ∧
    (∀ key : String, 2 ≤ key.length → key ∉ namedKeys →
       resolveKey vkKeyScan key = (0, false) ∧
       ∀ type shift ctrl alt meta,
         InjectKeyboardEventNative vkKeyScan accept type key shift ctrl alt meta =
           ⟨[], false⟩) ∧
    InjectKeyboardEventNative vkKeyScan accept KEY_DOWN "A" false false false false =
      ⟨[OsAction.sendKeyInput VK_LSHIFT false, OsAction.sendKeyInput 65 false,
        OsAction.sendKeyInput VK_LSHIFT true], accept 1⟩ := by
  refine ⟨⟨rfl, rfl, rfl, rfl, rfl, rfl, rfl, rfl, rfl, rfl⟩, ?_, ?_, ?_, ?_, ?_, rfl⟩
  · intro ch h1 h2
    rw [resolveKey_singleton, if_pos ⟨h1, h2⟩]
  · intro ch h1 h2
    have hnu : ¬('A' ≤ ch ∧ ch ≤ 'Z') := by
      rintro ⟨-, hz⟩
      exact absurd (le_trans h1 hz) (by decide)
    rw [resolveKey_singleton, if_neg hnu, if_pos ⟨h1, h2⟩]
  · intro ch h1 h2
    have hnu : ¬('A' ≤ ch ∧ ch ≤ 'Z') := by
      rintro ⟨ha, -⟩
      exact absurd (le_trans ha h2) (by decide)
    have hnl : ¬('a' ≤ ch ∧ ch ≤ 'z') := by
      rintro ⟨ha, -⟩
      exact absurd (le_trans ha h2) (by decide)
    rw [resolveKey_singleton, if_neg hnu, if_neg hnl, if_pos ⟨h1, h2⟩]
  · intro ch h1 h2 h3
    rw [resolveKey_singleton, if_neg h1, if_neg h2, if_neg h3]
  · intro key hlen hmem
    simp only [namedKeys, List.mem_cons, List.not_mem_nil, or_false, not_or] at hmem
    obtain ⟨m1, m2, m3, m4, m5, m6, m7, m8, m9, m10⟩ := hmem
    have h1 : resolveKey vkKeyScan key = (0, false) := by
      simp only [resolveKey, if_neg m1, if_neg m2, if_neg m3, if_neg m4, if_neg m5,
        if_neg m6, if_neg m7, if_neg m8, if_neg m9, if_neg m10]
      cases hd : key.data with
      | nil =>
        exfalso
        have : key.length = 0 := by simp [String.length, hd]
        omega
      | cons a t =>
        cases t with
        | nil =>
          exfalso
          have : key.length = 1 := by simp [String.length, hd]
          omega
        | cons b t2 => rfl
    refine ⟨h1, ?_⟩
    intro type shift ctrl alt meta
    simp [InjectKeyboardEventNative, h1]

open InputInjection in
/-- Witness for C5_key_resolution_priority: the uppercase-letter
conjunct applied at 'Q'. -/
theorem C5_key_resolution_priority_witness :
    resolveKey (fun _ => 0) (String.mk ['Q']) = ('Q'.toNat, true) :=
  (C5_key_resolution_priority (fun _ => 0) (fun _ => true)).2.1 'Q' (by decide) (by decide)

namespace WindowEmbedding

/-- A window as seen by `EnumWindows`: its handle, whether it is
visible (`IsWindowVisible`), its title (`GetWindowTextA`), and the full
executable path of its owning process, `none` when `OpenProcess` or
`GetModuleFileNameExA` fails (insufficient privilege etc.). -/
structure RawWindow where
  handle : Nat
  visible : Bool
  title : String
  procPath : Option String
deriving DecidableEq, Repr

/-- A window snapshot as surfaced by the enumerator
(`WindowInfo` in `window_embedding.h`). -/
structure WindowInfo where
  handle : Nat
  processName : String
  windowTitle : String
deriving DecidableEq, Repr

/-- Computes `filename = fullPath.substr(lastSlash + 1)` where `lastSlash` is
`fullPath.find_last_of("\x5c/")`: the part of the path after the last
backslash or forward slash (the whole path when neither occurs). -/
def fileNameOf (fullPath : String) : String :=
  String.mk ((fullPath.data.reverse.takeWhile
    (fun c => ¬(c = '\\' ∨ c = '/'))).reverse)

/-- Unanchored, case-sensitive substring containment:
`field.find(crit) != npos`, with an empty criterion matching everything
(the `strlen(search...) == 0 ||` short-circuit in `EnumWindowsProc`). -/
def matchCrit (crit field : String) : Bool :=
  crit = "" || decide (crit.data <:+: field.data)

/-- One step of `EnumWindowsProc` (`window_embedding_win.cc`, lines
19-76): skip invisible windows, skip windows with an empty title, skip
windows whose process cannot be opened or whose module file name cannot
be read, extract the executable file name from the full path, and — in
search mode — skip windows not matching both criteria.  Returns the
collected `WindowInfo` if the window is pushed, `none` if skipped. -/
def enumStep (isSearch : Bool) (searchProcessName searchWindowTitle : String)
    (w : RawWindow) : Option WindowInfo :=
  if !w.visible then none
  else if w.title = "" then none
  else
    match w.procPath with
    | none => none
    | some fullPath =>
      let filename := fileNameOf fullPath
      if isSearch then
        if matchCrit searchProcessName filename
            && matchCrit searchWindowTitle w.title then
          some ⟨w.handle, filename, w.title⟩
        else none
      else
        some ⟨w.handle, filename, w.title⟩

/-- The enumerator's snapshot sequence (§4.1, before deduplication):
`EnumWindows` over the raw window list with the non-search callback. -/
def windowEnumeration (raws : List RawWindow) : List WindowInfo :=
  raws.filterMap (enumStep false "" "")

/-- Model of `FindWindowNative` (`window_embedding_win.cc`, lines 78-93):
enumerate in search mode, collect every match, return the handle of
`windows[0]` if any, else null (`none`). -/
def FindWindowNative (raws : List RawWindow)
    (processName windowTitle : String) : Option Nat :=
  ((raws.filterMap (enumStep true processName windowTitle)).head?).map (·.handle)

/-- The key by which `GetWindowListNative` deduplicates. -/
def keyOf (i : WindowInfo) : String × String := (i.processName, i.windowTitle)

/-- The dedup loop of `GetWindowListNative` (lines 166-176): walk the
collected list, keep an entry iff its (processName, windowTitle) pair
has not been seen, recording seen pairs in a set. -/
def dedupKeepFirst : List WindowInfo → List (String × String) → List WindowInfo
  | [], _ => []
  | w :: ws, seen =>
    if keyOf w ∈ seen then dedupKeepFirst ws seen
    else w :: dedupKeepFirst ws (keyOf w :: seen)

/-- Model of `GetWindowListNative` (`window_embedding_win.cc`, lines 156-179):
enumerate all windows (non-search mode), then remove duplicates by
(processName, windowTitle), keeping the first occurrence. -/
def GetWindowListNative (raws : List RawWindow) : List WindowInfo :=
  dedupKeepFirst (raws.filterMap (enumStep false "" "")) []

/-- The matcher predicate of §4.2 on a snapshot. -/
def windowMatches (processName windowTitle : String) (i : WindowInfo) : Bool :=
  matchCrit processName i.processName && matchCrit windowTitle i.windowTitle

/-- The specification-level matcher (§4.2, C8): filter the full
enumeration by both criteria and take the first element. -/
def findWindowSpec (raws : List RawWindow)
    (processName windowTitle : String) : Option WindowInfo :=
  ((windowEnumeration raws).filter (windowMatches processName windowTitle)).head?

end WindowEmbedding

namespace WindowEmbedding

/-- The search-mode callback keeps exactly the non-search snapshots
that match both criteria. -/
theorem enumStep_search (pn wt : String) (w : RawWindow) :
    enumStep true pn wt w =
      (enumStep false "" "" w).bind
        (fun i => if windowMatches pn wt i then some i else none) := by
  rcases w with ⟨h, v, t, p⟩
  cases v <;> rcases p with - | path <;> by_cases ht : t = "" <;>
    simp [enumStep, windowMatches, ht]

theorem filterMap_bind_guard {α β : Type} (f : α → Option β) (p : β → Bool) :
    ∀ l : List α,
      l.filterMap (fun a => (f a).bind (fun b => if p b then some b else none))
        = (l.filterMap f).filter p
  | [] => rfl
  | a :: l => by
    cases hf : f a with
    | none => simp [List.filterMap_cons, hf, filterMap_bind_guard f p l]
    | some b =>
      by_cases hp : p b <;>
        simp [List.filterMap_cons, hf, hp, List.filter_cons, filterMap_bind_guard f p l]

theorem windowMatches_empty (i : WindowInfo) : windowMatches "" "" i = true := by
  simp [windowMatches, matchCrit]

/-- Filtering by a key-determined predicate commutes with first-kept
deduplication as far as the first match is concerned, provided no seen
key satisfies the predicate. -/
theorem dedup_filter_head (p : String × String → Bool) :
    ∀ (ws : List WindowInfo) (seen : List (String × String)),
      (∀ k ∈ seen, p k = false) →
      ((dedupKeepFirst ws seen).filter (fun i => p (keyOf i))).head?
        = (ws.filter (fun i => p (keyOf i))).head?
  | [], _, _ => rfl
  | w :: ws, seen, hseen => by
    by_cases hk : keyOf w ∈ seen
    · have hp : p (keyOf w) = false := hseen _ hk
      simp only [dedupKeepFirst, if_pos hk, List.filter_cons, hp, cond_false]
      exact dedup_filter_head p ws seen hseen
    · by_cases hp : p (keyOf w)
      · simp [dedupKeepFirst, hk, List.filter_cons, hp]
      · have hp' : p (keyOf w) = false := by simpa using hp
        simp only [dedupKeepFirst, if_neg hk, List.filter_cons, hp', cond_false]
        refine dedup_filter_head p ws (keyOf w :: seen) ?_
        intro k hkm
        rcases List.mem_cons.mp hkm with rfl | hkm2
        · exact hp'
        · exact hseen _ hkm2

/-- Every snapshot kept by the dedup loop has an unseen key and is the
first occurrence of its key in the walked list. -/
theorem dedup_mem_first :
    ∀ (ws : List WindowInfo) (seen : List (String × String)) (w : WindowInfo),
      w ∈ dedupKeepFirst ws seen →
      keyOf w ∉ seen ∧ ws.find? (fun v => decide (keyOf v = keyOf w)) = some w
  | [], _, _, h => by cases h
  | u :: us, seen, w, h => by
    by_cases hk : keyOf u ∈ seen
    · rw [dedupKeepFirst, if_pos hk] at h
      obtain ⟨h1, h2⟩ := dedup_mem_first us seen w h
      refine ⟨h1, ?_⟩
      rw [List.find?_cons_of_neg, h2]
      simp only [decide_eq_true_eq]
      intro he
      exact h1 (he ▸ hk)
    · rw [dedupKeepFirst, if_neg hk] at h
      rcases List.mem_cons.mp h with rfl | hmem
      · exact ⟨hk, List.find?_cons_of_pos _ (by simp)⟩
      · obtain ⟨h1, h2⟩ := dedup_mem_first us (keyOf u :: seen) w hmem
        have hne : keyOf u ≠ keyOf w := fun he => h1 (he ▸ List.mem_cons_self _ _)
        refine ⟨fun hs => h1 (List.mem_cons_of_mem _ hs), ?_⟩
        rw [List.find?_cons_of_neg, h2]
        simpa using hne

/-- The dedup loop output has pairwise-distinct keys. -/
theorem dedup_pairwise :
    ∀ (ws : List WindowInfo) (seen : List (String × String)),
      (dedupKeepFirst ws seen).Pairwise (fun a b => keyOf a ≠ keyOf b)
  | [], _ => List.Pairwise.nil
  | u :: us, seen => by
    by_cases hk : keyOf u ∈ seen
    · rw [dedupKeepFirst, if_pos hk]
      exact dedup_pairwise us seen
    · rw [dedupKeepFirst, if_neg hk]
      refine List.Pairwise.cons ?_ (dedup_pairwise us (keyOf u :: seen))
      intro b hb
      have := (dedup_mem_first us (keyOf u :: seen) b hb).1
      exact fun he => this (he ▸ List.mem_cons_self _ _)

/-- Every walked snapshot's key is either already seen or represented
in the dedup output. -/
theorem dedup_complete :
    ∀ (ws : List WindowInfo) (seen : List (String × String)) (v : WindowInfo),
      v ∈ ws →
      keyOf v ∈ seen ∨ ∃ w ∈ dedupKeepFirst ws seen, keyOf w = keyOf v
  | [], _, _, h => by cases h
  | u :: us, seen, v, h => by
    by_cases hk : keyOf u ∈ seen
    · rw [dedupKeepFirst, if_pos hk]
      rcases List.mem_cons.mp h with rfl | hmem
      · exact Or.inl hk
      · exact dedup_complete us seen v hmem
    · rw [dedupKeepFirst, if_neg hk]
      rcases List.mem_cons.mp h with rfl | hmem
      · exact Or.inr ⟨v, List.mem_cons_self _ _, rfl⟩
      · rcases dedup_complete us (keyOf u :: seen) v hmem with hks | ⟨w, hw, he⟩
        · rcases List.mem_cons.mp hks with he2 | hs
          · exact Or.inr ⟨u, List.mem_cons_self _ _, he2.symm⟩
          · exact Or.inl hs
        · exact Or.inr ⟨w, List.mem_cons_of_mem _ hw, he⟩

end WindowEmbedding

open WindowEmbedding in
/-- C8: `findWindow` returns exactly the first element, in enumeration
order, of the full enumeration filtered by unanchored case-sensitive
substring containment of both criteria (empty criterion = wildcard), or
a not-found result; with both criteria empty it returns the first
enumerated visible, titled window; and the same first match is obtained
whether or not the enumeration is first deduplicated. -/
theorem C8_findWindow_refines_filter (raws : List RawWindow) (pn wt : String) :
    FindWindowNative raws pn wt = (findWindowSpec raws pn wt).map (·.handle) ∧
    findWindowSpec raws "" "" = (windowEnumeration raws).head? ∧
    ((GetWindowListNative raws).filter (windowMatches pn wt)).head?
      = findWindowSpec raws pn wt := by
  refine ⟨?_, ?_, ?_⟩
  · have hf : enumStep true pn wt = fun a =>
        (enumStep false "" "" a).bind
          (fun i => if windowMatches pn wt i then some i else none) :=
      funext (enumStep_search pn wt)
    simp only [FindWindowNative, findWindowSpec, windowEnumeration, hf,
      filterMap_bind_guard]
  · simp only [findWindowSpec]
    cases hl : windowEnumeration raws with
    | nil => rfl
    | cons a l => simp [List.filter_cons, windowMatches_empty a]
  · have h := dedup_filter_head
      (fun k => matchCrit pn k.1 && matchCrit wt k.2)
      (raws.filterMap (enumStep false "" "")) []
      (by intro k hk; cases hk)
    have hfun : (fun i : WindowInfo =>
        (fun k : String × String => matchCrit pn k.1 && matchCrit wt k.2) (keyOf i))
          = windowMatches pn wt := by
      funext i
      rfl
    rw [hfun] at h
    exact h

open WindowEmbedding in
/-- C9: the sequence returned by `getWindowList` never contains two
snapshots with the same (processName, windowTitle) pair, and each kept
snapshot is the first (earliest in enumeration order) occurrence of its
pair in the raw enumeration; every enumerated pair is represented. -/
theorem C9_getWindowList_dedup (raws : List RawWindow) :
    (GetWindowListNative raws).Pairwise (fun a b => keyOf a ≠ keyOf b) ∧
    (∀ w ∈ GetWindowListNative raws,
       (windowEnumeration raws).find? (fun v => decide (keyOf v = keyOf w)) = some w) ∧
    (∀ v ∈ windowEnumeration raws,
       ∃ w ∈ GetWindowListNative raws, keyOf w = keyOf v) := by
  refine ⟨?_, ?_, ?_⟩
  · exact dedup_pairwise (raws.filterMap (enumStep false "" "")) []
  · intro w hw
    exact (dedup_mem_first (raws.filterMap (enumStep false "" "")) [] w hw).2
  · intro v hv
    rcases dedup_complete (raws.filterMap (enumStep false "" "")) [] v hv with hk | hex
    · cases hk
    · exact hex

namespace WindowEmbedding

-- Window style bits from <windows.h>.
def WS_POPUP : Nat := 0x80000000
def WS_CAPTION : Nat := 0x00C00000
def WS_THICKFRAME : Nat := 0x00040000
def WS_MINIMIZEBOX : Nat := 0x00020000
def WS_MAXIMIZEBOX : Nat := 0x00010000
def WS_SYSMENU : Nat := 0x00080000
def WS_CHILD : Nat := 0x40000000
def WS_EX_DLGMODALFRAME : Nat := 0x00000001
def WS_EX_WINDOWEDGE : Nat := 0x00000100
def WS_EX_CLIENTEDGE : Nat := 0x00000200
def WS_EX_STATICEDGE : Nat := 0x00020000

/-- The decorative style bits stripped by embed and restored by unembed:
`WS_POPUP | WS_CAPTION | WS_THICKFRAME | WS_MINIMIZEBOX | WS_MAXIMIZEBOX
| WS_SYSMENU`. -/
def decorMask : Nat :=
  WS_POPUP ||| WS_CAPTION ||| WS_THICKFRAME ||| WS_MINIMIZEBOX ||| WS_MAXIMIZEBOX ||| WS_SYSMENU

/-- The extended decoration bits cleared by embed. -/
def exDecorMask : Nat :=
  WS_EX_DLGMODALFRAME ||| WS_EX_WINDOWEDGE ||| WS_EX_CLIENTEDGE ||| WS_EX_STATICEDGE

/-- Complement `~mask` on a 64-bit `LONG_PTR` bit pattern. -/
def compl64 (mask : Nat) : Nat := 0xFFFFFFFFFFFFFFFF ^^^ mask

/-- The OS window state the embedding layer reads and writes:
`live` is `IsWindow`, `parentOf` the ownership chain, `style`/`exStyle`
the `GWL_STYLE`/`GWL_EXSTYLE` words, and `setParentOk` models whether
the OS `SetParent` primitive accepts a reparent request (false =
`SetParent` returns NULL, e.g. access denied). -/
structure WinState where
  live : Nat → Bool
  parentOf : Nat → Option Nat
  style : Nat → Nat
  exStyle : Nat → Nat
  setParentOk : Nat → Option Nat → Bool

/-- Model of `EmbedWindowNative` (`window_embedding_win.cc`, lines 95-127):
validate both handles with `IsWindow`, call `SetParent`, and on success
strip the decorative style bits, set `WS_CHILD`, clear the extended
decoration bits (the `SetWindowPos` style-only redraw has no modelled
state effect).  Returns the updated OS state and the boolean result. -/
def EmbedWindowNative (os : WinState) (childWindow parentWindow : Nat) :
    WinState × Bool :=
  if !(os.live childWindow) || !(os.live parentWindow) then (os, false)
  else if !(os.setParentOk childWindow (some parentWindow)) then (os, false)
  else
    ({ os with
        parentOf := fun h => if h = childWindow then some parentWindow else os.parentOf h,
        style := fun h =>
          if h = childWindow then
            (os.style childWindow &&& compl64 decorMask) ||| WS_CHILD
          else os.style h,
        exStyle := fun h =>
          if h = childWindow then os.exStyle childWindow &&& compl64 exDecorMask
          else os.exStyle h },
     true)

/-- Model of `UnembedWindowNative` (`window_embedding_win.cc`, lines 129-154):
validate the handle, `SetParent(hwnd, NULL)`, and on success clear
`WS_CHILD` and restore the decorative style bits (extended styles are
not touched). -/
def UnembedWindowNative (os : WinState) (window : Nat) : WinState × Bool :=
  if !(os.live window) then (os, false)
  else if !(os.setParentOk window none) then (os, false)
  else
    ({ os with
        parentOf := fun h => if h = window then none else os.parentOf h,
        style := fun h =>
          if h = window then (os.style window &&& compl64 WS_CHILD) ||| decorMask
          else os.style h },
     true)

/-- Process-wide mutable state of `window_embedding.cc`: the OS window
state plus the static `embeddedWindows` map (containerId to handle). -/
structure EmbedState where
  os : WinState
  registry : String → Option Nat

/-- Result object of `embedWindow` (`success`, optional `error`,
optional `windowID` — the latter set only by the macOS build). -/
structure EmbedResult where
  success : Bool
  error : Option String
  windowID : Option Nat
deriving DecidableEq, Repr

/-- Result object of `unembedWindow`. -/
structure UnembedResult where
  success : Bool
  error : Option String
deriving DecidableEq, Repr

/-- Model of `EmbedWindow` from `window_embedding.cc` as compiled on Windows,
after input validation (the N-API marshaling already succeeded):
find the child window, fail with "Window not found" if none, fail with
"Parent window handle required" if the parent handle is null (absent or
zero), otherwise call the native embed and record the registry entry
when it succeeded and `containerId` is non-empty. -/
def EmbedWindow (raws : List RawWindow) (st : EmbedState)
    (containerId processName windowTitle : String) (parentWindowHandle : Nat) :
    EmbedState × EmbedResult :=
  match FindWindowNative raws processName windowTitle with
  | none => (st, ⟨false, some "Window not found", none⟩)
  | some childWindow =>
    if parentWindowHandle = 0 then
      (st, ⟨false, some "Parent window handle required", none⟩)
    else
      let r := EmbedWindowNative st.os childWindow parentWindowHandle
      let registry' :=
        if r.2 ∧ containerId ≠ "" then
          fun k => if k = containerId then some childWindow else st.registry k
        else st.registry
      ({ os := r.1, registry := registry' },
       ⟨r.2, if r.2 then none else some "Failed to embed window", none⟩)

/-- Model of `EmbedWindow` from `window_embedding.cc` as compiled on the
non-Windows (`__APPLE__`) build, after input validation.  `macEmbedOk`
models the platform `EmbedWindowNative` whose implementation is not
part of `src/`; per the caller's comment it only verifies that the
window still exists (screen-capture embedding), performing no reparent.
The registry is never touched and the OS state is never mutated; on
native success the result carries `success:true` and the windowID
(handle with the high flag bit masked off), on native failure
`success:false` with error "Window not found or no longer exists". -/
def EmbedWindowMacBuild (raws : List RawWindow) (st : EmbedState)
    (macEmbedOk : Nat → Nat → Bool)
    (containerId processName windowTitle : String) (parentWindowHandle : Nat) :
    EmbedState × EmbedResult :=
  let _ := containerId
  match FindWindowNative raws processName windowTitle with
  | none => (st, ⟨false, some "Window not found", none⟩)
  | some childWindow =>
    if parentWindowHandle = 0 then
      (st, ⟨false, some "Parent window handle required", none⟩)
    else
      if macEmbedOk childWindow parentWindowHandle then
        (st, ⟨true, none, some (childWindow &&& 0x7FFFFFFFFFFFFFFF)⟩)
      else
        (st, ⟨false, some "Window not found or no longer exists", none⟩)

/-- Model of `UnembedWindow` from `window_embedding.cc`, after input validation:
fail with "Window not found in embedded list" when `containerId` is
empty or has no registry record; otherwise run the native unembed and
erase the record only when it succeeded.  The result carries no error
field on the native-failure path, matching the source. -/
def UnembedWindow (st : EmbedState) (containerId : String) :
    EmbedState × UnembedResult :=
  if containerId = "" then
    (st, ⟨false, some "Window not found in embedded list"⟩)
  else
    match st.registry containerId with
    | none => (st, ⟨false, some "Window not found in embedded list"⟩)
    | some window =>
      let r := UnembedWindowNative st.os window
      let registry' :=
        if r.2 then (fun k => if k = containerId then none else st.registry k)
        else st.registry
      ({ os := r.1, registry := registry' }, ⟨r.2, none⟩)

/-- The §4.4 Free state for a handle: detached to top level, the
child-window bit clear, all decorative style bits set. -/
def FreeStyled (os : WinState) (h : Nat) : Prop :=
  os.parentOf h = none ∧ os.style h &&& WS_CHILD = 0 ∧
    os.style h &&& decorMask = decorMask

end WindowEmbedding

namespace WindowEmbedding

/-- Theorem: `FindWindowNative` equals the §4.2 contract: first element of the
filtered enumeration, projected to its handle. -/
theorem FindWindowNative_eq_spec (raws : List RawWindow) (pn wt : String) :
    FindWindowNative raws pn wt = (findWindowSpec raws pn wt).map (·.handle) := by
  have hf : enumStep true pn wt = fun a =>
      (enumStep false "" "" a).bind
        (fun i => if windowMatches pn wt i then some i else none) :=
    funext (enumStep_search pn wt)
  simp only [FindWindowNative, findWindowSpec, windowEnumeration, hf,
    filterMap_bind_guard]

theorem EmbedWindowNative_success (os : WinState) (child parent : Nat)
    (hlc : os.live child = true) (hlp : os.live parent = true)
    (hsp : os.setParentOk child (some parent) = true) :
    EmbedWindowNative os child parent =
      ({ os with
          parentOf := fun h => if h = child then some parent else os.parentOf h,
          style := fun h =>
            if h = child then (os.style child &&& compl64 decorMask) ||| WS_CHILD
            else os.style h,
          exStyle := fun h =>
            if h = child then os.exStyle child &&& compl64 exDecorMask
            else os.exStyle h },
       true) := by
  simp [EmbedWindowNative, hlc, hlp, hsp]

theorem UnembedWindowNative_success (os : WinState) (window : Nat)
    (hl : os.live window = true) (hsp : os.setParentOk window none = true) :
    UnembedWindowNative os window =
      ({ os with
          parentOf := fun h => if h = window then none else os.parentOf h,
          style := fun h =>
            if h = window then (os.style window &&& compl64 WS_CHILD) ||| decorMask
            else os.style h },
       true) := by
  simp [UnembedWindowNative, hl, hsp]

theorem or_mask_and_mask (y m : Nat) : (y ||| m) &&& m = m := by
  apply Nat.eq_of_testBit_eq
  intro i
  simp only [Nat.testBit_and, Nat.testBit_or]
  cases h : m.testBit i <;> simp [h]

/-- After a successful unembed the `WS_CHILD` bit of the rewritten
style word is clear, whatever the previous style was. -/
theorem unembed_style_child_clear (x : Nat) :
    ((x &&& compl64 WS_CHILD) ||| decorMask) &&& WS_CHILD = 0 := by
  apply Nat.eq_of_testBit_eq
  intro i
  simp only [Nat.testBit_and, Nat.testBit_or, Nat.zero_testBit]
  by_cases hi : i = 30
  · subst hi
    have h1 : (compl64 WS_CHILD).testBit 30 = false := by decide
    have h2 : decorMask.testBit 30 = false := by decide
    simp [h1, h2]
  · have h3 : WS_CHILD.testBit i = false := by
      have hpow : WS_CHILD = 2 ^ 30 := by decide
      rw [hpow, Nat.testBit_two_pow]
      simpa using fun he => hi he.symm
    simp [h3]

end WindowEmbedding

open WindowEmbedding in
/-- C7: an `embedWindow` call whose criteria match no enumerated window
returns exactly success:false with error "Window not found" and leaves
the registry (and all state) unchanged. -/
theorem C7_embed_window_not_found (raws : List RawWindow) (st : EmbedState)
    (containerId processName windowTitle : String) (parentWindowHandle : Nat)
    (hnone : (windowEnumeration raws).filter (windowMatches processName windowTitle) = []) :
    EmbedWindow raws st containerId processName windowTitle parentWindowHandle
      = (st, ⟨false, some "Window not found", none⟩) := by
  have hf : FindWindowNative raws processName windowTitle = none := by
    rw [FindWindowNative_eq_spec]
    simp [findWindowSpec, hnone]
  simp [EmbedWindow, hf]

open WindowEmbedding in
/-- Witness for C7_embed_window_not_found: empty raw window list. -/
theorem C7_embed_window_not_found_witness :
    EmbedWindow [] ⟨⟨fun _ => true, fun _ => none, fun _ => 0, fun _ => 0,
        fun _ _ => true⟩, fun _ => none⟩ "c" "p" "t" 3
      = (⟨⟨fun _ => true, fun _ => none, fun _ => 0, fun _ => 0,
          fun _ _ => true⟩, fun _ => none⟩,
         ⟨false, some "Window not found", none⟩) :=
  C7_embed_window_not_found [] _ "c" "p" "t" 3 rfl

open WindowEmbedding in
/-- C10: an `embedWindow` with empty `containerId` whose native embed
succeeds returns success:true but creates no registry record, and every
`unembedWindow` with empty `containerId` fails with "Window not found
in embedded list" regardless of the registry contents, leaving the
state unchanged. -/
theorem C10_empty_containerId_orphan (raws : List RawWindow) (st : EmbedState)
    (processName windowTitle : String) (parentWindowHandle childWindow : Nat)
    (hfind : FindWindowNative raws processName windowTitle = some childWindow)
    (hph : parentWindowHandle ≠ 0)
    (hembed : (EmbedWindowNative st.os childWindow parentWindowHandle).2 = true) :
    (EmbedWindow raws st "" processName windowTitle parentWindowHandle).2.success = true ∧
    (EmbedWindow raws st "" processName windowTitle parentWindowHandle).1.registry
      = st.registry ∧
    (∀ st' : EmbedState,
       UnembedWindow st' "" = (st', ⟨false, some "Window not found in embedded list"⟩)) := by
  refine ⟨?_, ?_, ?_⟩
  · simp [EmbedWindow, hfind, hph, hembed]
  · simp [EmbedWindow, hfind, hph]
  · intro st'
    rfl

open WindowEmbedding in
/-- Witness for C10_empty_containerId_orphan: one visible titled window,
an OS accepting the reparent. -/
theorem C10_empty_containerId_orphan_witness :
    (EmbedWindow [⟨1, true, "Untitled", some "C:/notepad.exe"⟩]
        ⟨⟨fun _ => true, fun _ => none, fun _ => 0, fun _ => 0, fun _ _ => true⟩,
         fun _ => none⟩ "" "notepad" "Unt" 5).2.success = true :=
  (C10_empty_containerId_orphan _ _ "notepad" "Unt" 5 1 (by decide) (by decide)
    (by decide)).1

open WindowEmbedding in
/-- C4, counterexample: the claim quantifies over every containerId,
but with an empty containerId a successful embed creates no registry
record, so the immediately following unembed for that containerId does
not succeed — it fails with the not-found error. -/
theorem C4_counterexample_empty_containerId :
    (EmbedWindow [⟨1, true, "Untitled", some "C:/notepad.exe"⟩]
        ⟨⟨fun _ => true, fun _ => none, fun _ => 0, fun _ => 0, fun _ _ => true⟩,
         fun _ => none⟩ "" "notepad" "Unt" 5).2.success = true ∧
    (UnembedWindow
        (EmbedWindow [⟨1, true, "Untitled", some "C:/notepad.exe"⟩]
          ⟨⟨fun _ => true, fun _ => none, fun _ => 0, fun _ => 0, fun _ _ => true⟩,
           fun _ => none⟩ "" "notepad" "Unt" 5).1 "").2
      = ⟨false, some "Window not found in embedded list"⟩ := by
  decide

open WindowEmbedding in
/-- C4 (amended to non-empty containerId): for every non-empty
containerId, a successful embedWindow followed by unembedWindow for
that containerId succeeds, detaches the window to top level with its
decorative style bits restored (Free state) and removes the registry
entry; a second unembedWindow for the same containerId then fails with
the not-found result; and whenever the underlying native unembed fails,
the registry entry is kept. -/
theorem C4_embed_unembed_roundtrip (raws : List RawWindow) (st : EmbedState)
    (containerId processName windowTitle : String)
    (parentWindowHandle childWindow : Nat)
    (hcid : containerId ≠ "")
    (hfind : FindWindowNative raws processName windowTitle = some childWindow)
    (hph : parentWindowHandle ≠ 0)
    (hlc : st.os.live childWindow = true)
    (hlp : st.os.live parentWindowHandle = true)
    (hsp1 : st.os.setParentOk childWindow (some parentWindowHandle) = true)
    (hsp2 : st.os.setParentOk childWindow none = true) :
    (EmbedWindow raws st containerId processName windowTitle parentWindowHandle).2
      = ⟨true, none, none⟩ ∧
    (UnembedWindow (EmbedWindow raws st containerId processName windowTitle
        parentWindowHandle).1 containerId).2 = ⟨true, none⟩ ∧
    FreeStyled (UnembedWindow (EmbedWindow raws st containerId processName windowTitle
        parentWindowHandle).1 containerId).1.os childWindow ∧
    (UnembedWindow (EmbedWindow raws st containerId processName windowTitle
        parentWindowHandle).1 containerId).1.registry containerId = none ∧
    UnembedWindow (UnembedWindow (EmbedWindow raws st containerId processName windowTitle
        parentWindowHandle).1 containerId).1 containerId
      = ((UnembedWindow (EmbedWindow raws st containerId processName windowTitle
          parentWindowHandle).1 containerId).1,
         ⟨false, some "Window not found in embedded list"⟩) ∧
    (∀ (st2 : EmbedState) (cid2 : String) (w : Nat), cid2 ≠ "" →
       st2.registry cid2 = some w →
       (UnembedWindowNative st2.os w).2 = false →
       (UnembedWindow st2 cid2).1.registry = st2.registry ∧
       (UnembedWindow st2 cid2).2.success = false) := by
  refine ⟨?_, ?_, ?_, ?_, ?_, ?_⟩
  · simp [EmbedWindow, hfind, hph, EmbedWindowNative, hlc, hlp, hsp1, hcid]
  · simp [EmbedWindow, hfind, hph, EmbedWindowNative, hlc, hlp, hsp1, hcid,
      UnembedWindow, UnembedWindowNative, hsp2]
  · simp only [EmbedWindow, hfind, hph, EmbedWindowNative, hlc, hlp, hsp1, hcid,
      UnembedWindow, UnembedWindowNative, hsp2]
    simp [FreeStyled, hcid, hlc, hsp2, unembed_style_child_clear, or_mask_and_mask]
  · simp [EmbedWindow, hfind, hph, EmbedWindowNative, hlc, hlp, hsp1, hcid,
      UnembedWindow, UnembedWindowNative, hsp2]
  · simp [EmbedWindow, hfind, hph, EmbedWindowNative, hlc, hlp, hsp1, hcid,
      UnembedWindow, UnembedWindowNative, hsp2]
  · intro st2 cid2 w hcid2 hreg hfail
    constructor <;> simp [UnembedWindow, hcid2, hreg, hfail]

open WindowEmbedding in
/-- Witness for C4_embed_unembed_roundtrip at a concrete window list
and OS state. -/
theorem C4_embed_unembed_roundtrip_witness :
    (EmbedWindow [⟨1, true, "Untitled", some "C:/notepad.exe"⟩]
        ⟨⟨fun _ => true, fun _ => none, fun _ => 0, fun _ => 0, fun _ _ => true⟩,
         fun _ => none⟩ "cid" "notepad" "Unt" 5).2 = ⟨true, none, none⟩ :=
  (C4_embed_unembed_roundtrip [⟨1, true, "Untitled", some "C:/notepad.exe"⟩]
    ⟨⟨fun _ => true, fun _ => none, fun _ => 0, fun _ => 0, fun _ _ => true⟩,
     fun _ => none⟩ "cid" "notepad" "Unt" 5 1
    (by decide) (by decide) (by decide) (by decide) (by decide) (by decide) (by decide)).1

open WindowEmbedding in
/-- C1, counterexample: on the non-Windows (`__APPLE__`) build, an
embedWindow call that passes input validation and whose native
screen-capture check succeeds returns success:true with a windowID —
not {success:false} with a capability-not-supported error as the claim
states. -/
theorem C1_mac_embed_can_succeed :
    (EmbedWindowMacBuild [⟨1, true, "Untitled", some "/Applications/TextEdit"⟩]
        ⟨⟨fun _ => true, fun _ => none, fun _ => 0, fun _ => 0, fun _ _ => true⟩,
         fun _ => none⟩ (fun _ _ => true) "c1" "TextEdit" "Unt" 5).2
      = ⟨true, none, some 1⟩ := by
  decide

open WindowEmbedding in
/-- C1 (amended): on the non-Windows (macOS) build, every embedWindow
call that passes input validation leaves the registry and all OS window
state unchanged (no reparent is attempted); when the native
screen-capture verification succeeds it returns success:true with the
windowID (handle with the high flag bit masked off), and when it fails
it returns success:false with the descriptive error "Window not found
or no longer exists" — not a capability-not-supported error. -/
theorem C1_mac_embed_behavior (raws : List RawWindow) (st : EmbedState)
    (macEmbedOk : Nat → Nat → Bool)
    (containerId processName windowTitle : String)
    (parentWindowHandle childWindow : Nat)
    (hfind : FindWindowNative raws processName windowTitle = some childWindow)
    (hph : parentWindowHandle ≠ 0) :
    (EmbedWindowMacBuild raws st macEmbedOk containerId processName windowTitle
        parentWindowHandle).1 = st ∧
    (macEmbedOk childWindow parentWindowHandle = true →
      (EmbedWindowMacBuild raws st macEmbedOk containerId processName windowTitle
          parentWindowHandle).2
        = ⟨true, none, some (childWindow &&& 0x7FFFFFFFFFFFFFFF)⟩) ∧
    (macEmbedOk childWindow parentWindowHandle = false →
      (EmbedWindowMacBuild raws st macEmbedOk containerId processName windowTitle
          parentWindowHandle).2
        = ⟨false, some "Window not found or no longer exists", none⟩) := by
  refine ⟨?_, ?_, ?_⟩
  · cases h : macEmbedOk childWindow parentWindowHandle <;>
      simp [EmbedWindowMacBuild, hfind, hph, h]
  · intro h
    simp [EmbedWindowMacBuild, hfind, hph, h]
  · intro h
    simp [EmbedWindowMacBuild, hfind, hph, h]

open WindowEmbedding in
/-- Witness for C1_mac_embed_behavior: the state-unchanged conjunct at
a concrete window list and registry. -/
theorem C1_mac_embed_behavior_witness :
    (EmbedWindowMacBuild [⟨2, true, "Doc", some "/usr/bin/app"⟩]
        ⟨⟨fun _ => false, fun _ => none, fun _ => 0, fun _ => 0, fun _ _ => false⟩,
         fun _ => none⟩ (fun _ _ => false) "k" "app" "Doc" 9).1
      = ⟨⟨fun _ => false, fun _ => none, fun _ => 0, fun _ => 0, fun _ _ => false⟩,
         fun _ => none⟩ :=
  (C1_mac_embed_behavior [⟨2, true, "Doc", some "/usr/bin/app"⟩]
    ⟨⟨fun _ => false, fun _ => none, fun _ => 0, fun _ => 0, fun _ _ => false⟩,
     fun _ => none⟩ (fun _ _ => false) "k" "app" "Doc" 9 2
    (by decide) (by decide)).1
